import Mathlib

/-!
Shallow embedding of the asset-acquisition / scene-state pipeline of the
vanscans-garage viewer, and proofs of the spec's testable properties.

Sources embedded:
- `src/js/config.js`            : asset path helpers and the static van list
- `src/js/managers/VanManager.js`: availability prober (`detectAvailableVans`),
  vehicle cache & switchboard (`loadVan`, `switchToVan`, `getAvailableVans`),
  accessory attachment (`attachWheelsToVan`)
- `src/js/utils/ModelLoader.js` : batch loader (`loadModels`) and metadata
  (`getModelInfo`)

JavaScript numbers appearing in the embedded fragments are all either array
lengths / counts (embedded as `Nat`) or exact small rationals produced by
dividing counts by 3 (embedded as `ℚ`); `Math.floor` is `Int.floor`.
Asynchronous control flow is embedded as a labelled transition system whose
atomic segments are the maximal await-free pieces of `loadVan`, mirroring the
run-to-completion semantics of the JS event loop.
-/

namespace Garage

/-! ## config.js -/

/-- `String(vanNumber).padStart(3, '0')` from `config.js`. -/
def padStart3 (n : Nat) : String :=
  let s := toString n
  if 3 ≤ s.length then s else String.mk (List.replicate (3 - s.length) '0') ++ s

/-- `CONFIG.models.vans.getFilename` (config.js lines 96-99). -/
def getFilename (vanNumber : Nat) : String :=
  "van-" ++ padStart3 vanNumber ++ ".glb"

/-- `CONFIG.models.vans.getVanId` (config.js lines 102-105). -/
def getVanId (vanNumber : Nat) : String :=
  "van-" ++ padStart3 vanNumber

/-- `CONFIG.models.vans.basePath` (config.js line 73). -/
def basePath : String := "models/vans/"

/-- A van descriptor as built by `config.js` (static list entry) or by
`detectAvailableVans` (discovered candidate).  Only the fields the embedded
operations read are carried: `id`, `name`, `filename`, `thumbnail` and the
discovery index `number` (`none` for the static entry, which has no `number`
property; detected candidates always carry one).  The transform fields
(`scale`, `position`, `rotation`) are consumed only by the rendering library
and are not part of any embedded computation. -/
structure VanConfig where
  id : String
  name : String
  filename : String
  thumbnail : String
  number : Option Nat
deriving DecidableEq, Repr

/-- `CONFIG.models.vans.list` (config.js lines 82-93). -/
def staticList : List VanConfig :=
  [{ id := "van-001", name := "Van 001", filename := "van-001.glb",
     thumbnail := "thumbnails/van-001.jpg", number := none }]

/-! ## VanManager.detectAvailableVans (the availability prober) -/

/-- Outcome of one `fetch(path, { method: HEAD })` existence check: the
response resolved with `response.ok` true, resolved with it false, or the
fetch rejected (network error).  The prober consumes nothing else of the
response. -/
inductive HeadResult where
  | ok
  | notOk
  | err
deriving DecidableEq, Repr

/-- `checkCount` (VanManager.js line 36): the prober checks indices
`1..checkCount`. -/
def checkCount : Nat := 100

/-- Candidate path checked for index `i`
(`CONFIG.models.vans.basePath + filename`, VanManager.js line 42). -/
def candidatePath (i : Nat) : String := basePath ++ getFilename i

/-- The candidate record synthesized for index `i` when its existence check
succeeds (VanManager.js lines 49-58). -/
def candidateFor (i : Nat) : VanConfig :=
  { id := getVanId i
    name := "Van " ++ padStart3 i
    filename := getFilename i
    thumbnail := "thumbnails/van-" ++ padStart3 i ++ ".jpg"
    number := some i }

/-- One check promise of the prober: `ok` responses produce the candidate
record, a non-ok response produces `null`, and a rejected fetch is caught and
also produces `null` (VanManager.js lines 46-63). -/
def checkResult (server : Nat → HeadResult) (i : Nat) : Option VanConfig :=
  match server i with
  | .ok => some (candidateFor i)
  | .notOk => none
  | .err => none

/-- The prober's memoization state (`this.availableVans`,
`this.vansDetected`). -/
structure DetectState where
  availableVans : List VanConfig
  vansDetected : Bool
deriving DecidableEq, Repr

/-- Comparator of the final `detectedVans.sort((a, b) => a.number - b.number)`
(VanManager.js line 78).  Every sorted element is a discovered candidate and
carries `some` index; `getD 0` is only a total-function default. -/
def vanNumberLe (a b : VanConfig) : Bool :=
  a.number.getD 0 ≤ b.number.getD 0

/-- `VanManager.detectAvailableVans` (VanManager.js lines 27-85) over an
abstract server `server` answering the HEAD checks.  Returns the result list,
the successor memoization state, and the number of existence checks issued by
this call.  `Promise.all` preserves index order, so the settled check results
are the list `checkResult server 1, ..., checkResult server checkCount`. -/
def detectAvailableVans (server : Nat → HeadResult) (s : DetectState) :
    List VanConfig × DetectState × Nat :=
  if s.vansDetected then (s.availableVans, s, 0)
  else
    let results := (List.range checkCount).map (fun k => checkResult server (k + 1))
    let detectedVans := results.filterMap id
    let sorted := detectedVans.mergeSort vanNumberLe
    (sorted, { availableVans := sorted, vansDetected := true }, checkCount)

/-- `VanManager.getAvailableVans` (VanManager.js lines 344-350): return the
detected list when detection has completed and found at least one van,
otherwise the static config list.  A pure read: takes no server and issues no
checks. -/
def getAvailableVans (s : DetectState) : List VanConfig :=
  if s.vansDetected = true ∧ 0 < s.availableVans.length then s.availableVans
  else staticList

/-! ## VanManager.loadVan / switchToVan (the cache & switchboard) -/

/-- Config resolution inside `loadVan` (VanManager.js lines 262-268): first
the static config list, then the detected list. -/
def findConfig (truckId : String) (availableVans : List VanConfig) : Option VanConfig :=
  match staticList.find? (fun t => t.id == truckId) with
  | some c => some c
  | none => availableVans.find? (fun t => t.id == truckId)

/-- One loaded model object (`gltf.scene` as stored in a cache entry):
its identity `mid`, its `visible` flag, and whether it has been added to the
scene root (`parent` non-null). -/
structure SceneObj where
  mid : Nat
  visible : Bool
  inScene : Bool
deriving DecidableEq, Repr

/-- Switchboard state: all model objects created so far, the id-to-model
cache (`this.vans`; JS `Map.set` replaces, embedded as cons plus
first-match lookup), the current model reference and id, the set of
in-flight `loadVan` calls suspended at their `await this.modelLoader
.loadModel`, and a fresh-identity counter for newly decoded models. -/
structure MState where
  objs : List SceneObj
  vans : List (String × Nat)
  currentVan : Option Nat
  currentVanId : Option String
  pending : List String
  nextModel : Nat
deriving DecidableEq, Repr

/-- Set the `visible` flag of the model object `m`. -/
def setVis (objs : List SceneObj) (m : Nat) (b : Bool) : List SceneObj :=
  objs.map (fun o => if o.mid = m then { o with visible := b } else o)

/-- `this.scene.addObject` on model `m` (recorded as `inScene`). -/
def attachObj (objs : List SceneObj) (m : Nat) : List SceneObj :=
  objs.map (fun o => if o.mid = m then { o with inScene := true } else o)

/-- `this.vans.get / has` lookup. -/
def lookupVan (vans : List (String × Nat)) (truckId : String) : Option Nat :=
  (vans.find? (fun p => p.1 == truckId)).map (fun p => p.2)

/-- `if (this.currentVan) { this.currentVan.visible = false; }`
(VanManager.js lines 253-255 and 320-322). -/
def hideCurrent (s : MState) : MState :=
  match s.currentVan with
  | some m => { s with objs := setVis s.objs m false }
  | none => s

/-- `VanManager.switchToVan` (VanManager.js lines 314-338): hide the current
model, make the requested cached model current, add it to the scene if it has
no parent yet, and set it visible.  The `not loaded yet` throw (line 316)
leaves the state unchanged; the embedded call sites only invoke it on cached
ids. -/
def switchToVan (s : MState) (truckId : String) : MState :=
  match lookupVan s.vans truckId with
  | none => s
  | some m =>
      let s1 := hideCurrent s
      { s1 with
        objs := setVis (attachObj s1.objs m) m true
        currentVan := some m
        currentVanId := some truckId }

/-- How the synchronous prefix of a `loadVan` call ends. -/
inductive StartOutcome where
  | switched
  | notFound
  | suspended
deriving DecidableEq, Repr

/-- The synchronous prefix of `VanManager.loadVan` (VanManager.js lines
251-280): optimistically hide the current model; on a cache hit run
`switchToVan` and return; otherwise resolve the config (static list first,
then the detected list `availableVans`), throw the not-found error if neither
has it, and otherwise start the load and suspend at the `await`. -/
def loadVanStart (s : MState) (availableVans : List VanConfig) (truckId : String) :
    MState × StartOutcome :=
  if (lookupVan (hideCurrent s).vans truckId).isSome then
    (switchToVan (hideCurrent s) truckId, .switched)
  else
    match findConfig truckId availableVans with
    | none => (hideCurrent s, .notFound)
    | some _ =>
        ({ hideCurrent s with pending := truckId :: (hideCurrent s).pending }, .suspended)

/-- Resumption of a suspended `loadVan` whose `loadModel` resolved
(VanManager.js lines 282-299): the decoded model is a fresh scene object
(freshly decoded, `visible` defaults to true, not yet in the scene), it is
stored in the cache, and `switchToVan` runs in the same atomic segment. -/
def loadVanResumeSuccess (s : MState) (truckId : String) : MState :=
  let m := s.nextModel
  let s1 : MState :=
    { s with
      objs := ⟨m, true, false⟩ :: s.objs
      vans := (truckId, m) :: s.vans
      pending := s.pending.erase truckId
      nextModel := m + 1 }
  switchToVan s1 truckId

/-- Resumption of a suspended `loadVan` whose `loadModel` rejected
(VanManager.js lines 300-307): re-show the current model and rethrow; the
call completes with the error and nothing is retried. -/
def loadVanResumeFailure (s : MState) (truckId : String) : MState :=
  let s1 : MState := { s with pending := s.pending.erase truckId }
  match s1.currentVan with
  | some m => { s1 with objs := setVis s1.objs m true }
  | none => s1

/-- The constructor state of `VanManager`: no models, empty cache, nothing
current, nothing in flight. -/
def initState : MState :=
  { objs := [], vans := [], currentVan := none, currentVanId := none,
    pending := [], nextModel := 0 }

/-- States reachable by interleaving `loadVan` calls.  A `start` step may use
any detected list (the prober fills `availableVans` independently); a resume
step consumes one in-flight load.  Load completions may arrive in any order,
so any pending id may resume at any step. -/
inductive Reachable : MState → Prop where
  | init : Reachable initState
  | start (s : MState) (availableVans : List VanConfig) (truckId : String) :
      Reachable s → Reachable (loadVanStart s availableVans truckId).1
  | resumeOk (s : MState) (truckId : String) :
      Reachable s → truckId ∈ s.pending → Reachable (loadVanResumeSuccess s truckId)
  | resumeFail (s : MState) (truckId : String) :
      Reachable s → truckId ∈ s.pending → Reachable (loadVanResumeFailure s truckId)

/-- Model `m` is rendered: some created scene object with identity `m` has
its `visible` flag set and has been attached to the scene root. -/
def VisibleModel (s : MState) (m : Nat) : Prop :=
  ∃ o ∈ s.objs, o.mid = m ∧ o.visible = true ∧ o.inScene = true

instance (s : MState) (m : Nat) : Decidable (VisibleModel s m) := by
  unfold VisibleModel; infer_instance

/-! ## ModelLoader.getModelInfo -/

/-- The geometry data `getModelInfo` reads off a mesh: `geometry.index.count`
when the geometry is indexed (`none` when `geometry.index` is null) and
`geometry.attributes.position.count`. -/
structure GeometryData where
  indexCount : Option Nat
  positionCount : Nat
deriving DecidableEq, Repr

/-- One node of the `model.traverse` walk as seen by `getModelInfo`: its
`isMesh` flag and its geometry (`none` when `child.geometry` is null). -/
structure MeshNode where
  isMesh : Bool
  geometry : Option GeometryData
deriving DecidableEq, Repr

/-- The polygon contribution of one geometry:
`geometry.index.count / 3` when indexed, else
`geometry.attributes.position.count / 3` (exact JS float division of counts,
embedded in `ℚ`). -/
def polyContribution (g : GeometryData) : ℚ :=
  match g.indexCount with
  | some ic => (ic : ℚ) / 3
  | none => (g.positionCount : ℚ) / 3

/-- The `polygonCount` field of `ModelLoader.getModelInfo` (ModelLoader.js
lines 144-167): accumulate contributions over the traversal and apply
`Math.floor` once to the total.  A model is its traversal list. -/
def getModelInfoPolygonCount (model : List MeshNode) : ℤ :=
  Int.floor (model.foldl
    (fun polygonCount child =>
      if child.isMesh then
        match child.geometry with
        | some g => polygonCount + polyContribution g
        | none => polygonCount
      else polygonCount)
    (0 : ℚ))

/-- The `vertexCount` field of `ModelLoader.getModelInfo`. -/
def getModelInfoVertexCount (model : List MeshNode) : Nat :=
  model.foldl
    (fun vertexCount child =>
      if child.isMesh then
        match child.geometry with
        | some g => vertexCount + g.positionCount
        | none => vertexCount
      else vertexCount)
    0

/-! ## ModelLoader.loadModels -/

/-- `Promise.all` over already-settled outcomes, in list order: the first
rejection in the list rejects the batch, otherwise the ordered list of
resolutions is returned.  (The JS promise rejects with the temporally first
rejection; settlement order is embedded as list order.) -/
def promiseAll {E A : Type} : List (Except E A) → Except E (List A)
  | [] => .ok []
  | .error e :: _ => .error e
  | .ok a :: rest => (promiseAll rest).map (fun as => a :: as)

/-- `ModelLoader.loadModels` (ModelLoader.js lines 126-137) over an abstract
single-model loader `load`: map every config to its load outcome and
`Promise.all` them; the catch block only logs and rethrows. -/
def loadModels {C E A : Type} (load : C → Except E A) (modelConfigs : List C) :
    Except E (List A) :=
  promiseAll (modelConfigs.map load)

/-! ## VanManager.attachWheelsToVan (accessory attachment) -/

/-- A three.js `Object3D` as the attachment code sees it: a name, local
position / rotation / scale (opaque values of a type `V`), and children.
`clone()` deep-copies such a tree, so a clone is the tree itself. -/
inductive Obj3D (V : Type) where
  | mk (name : String) (position rotation scale : V) (children : List (Obj3D V))

def Obj3D.name {V : Type} : Obj3D V → String
  | .mk n _ _ _ _ => n

def Obj3D.position {V : Type} : Obj3D V → V
  | .mk _ p _ _ _ => p

def Obj3D.rotation {V : Type} : Obj3D V → V
  | .mk _ _ r _ _ => r

def Obj3D.scale {V : Type} : Obj3D V → V
  | .mk _ _ _ sc _ => sc

def Obj3D.children {V : Type} : Obj3D V → List (Obj3D V)
  | .mk _ _ _ _ cs => cs

mutual

/-- `object.traverse(cb)`: the object itself, then every descendant,
depth-first (`Obj3D.traverseAll` walks a child list). -/
def Obj3D.traverse {V : Type} : Obj3D V → List (Obj3D V)
  | .mk n p r sc cs => .mk n p r sc cs :: Obj3D.traverseAll cs

/-- Traversal of a list of subtrees, in order. -/
def Obj3D.traverseAll {V : Type} : List (Obj3D V) → List (Obj3D V)
  | [] => []
  | c :: cs => c.traverse ++ Obj3D.traverseAll cs

end

/-- `wheelPositions` (VanManager.js line 115): the fixed set of mount-point
names. -/
def wheelPositions : List String := ["FL", "FR", "RL", "RR"]

/-- The mount nodes found by the traversal scan (VanManager.js lines
118-123), in visit order. -/
def foundNulls {V : Type} (vanModel : Obj3D V) : List (Obj3D V) :=
  vanModel.traverse.filter (fun child => wheelPositions.contains child.name)

/-- One attached wheel: `this.wheelModel.clone()` with the mount node's
position, rotation and scale copied onto the clone's root (VanManager.js
lines 133-139). -/
def wheelCloneFor {V : Type} (wheelModel nullObject : Obj3D V) : Obj3D V :=
  .mk wheelModel.name nullObject.position nullObject.rotation nullObject.scale
    wheelModel.children

/-- `vanModel.add(child)`: append to the root's children (the clone has no
prior parent, so three.js performs a plain append). -/
def addChild {V : Type} (vanModel child : Obj3D V) : Obj3D V :=
  .mk vanModel.name vanModel.position vanModel.rotation vanModel.scale
    (vanModel.children ++ [child])

/-- `VanManager.attachWheelsToVan` (VanManager.js lines 109-146): no-op when
the wheel model is unavailable; scan for mount nodes; return early when none
is found; otherwise add one transformed wheel clone per mount node to the van
root. -/
def attachWheelsToVan {V : Type} (wheelModel : Option (Obj3D V)) (vanModel : Obj3D V) :
    Obj3D V :=
  match wheelModel with
  | none => vanModel
  | some wheel =>
      if (foundNulls vanModel).isEmpty then vanModel
      else (foundNulls vanModel).foldl
        (fun van nullObject => addChild van (wheelCloneFor wheel nullObject)) vanModel

/-! ## Auxiliary definitions used by the statements -/

/-- The switchboard invariant behind the at-most-one-visible property: a
rendered scene object is always the object the `currentVan` reference points
at. -/
def Inv (s : MState) : Prop :=
  ∀ o ∈ s.objs, o.inScene = true → o.visible = true → s.currentVan = some o.mid

/-- The spec's polygon formula, written independently of the code's fold:
the sum over mesh nodes with a geometry of `index.count / 3` (indexed) or
`position.count / 3` (unindexed), floored to an integer. -/
def specPolygonCount (model : List MeshNode) : ℤ :=
  Int.floor (((model.filter (fun c => c.isMesh)).filterMap (fun c => c.geometry)).map
    polyContribution).sum

/-- Server oracle answering only index 1 positively. -/
def serverOnlyOne : Nat → HeadResult :=
  fun i => if i = 1 then .ok else .notOk

/-- Replace every erroring existence check by a plain not-found response. -/
def maskErrors (server : Nat → HeadResult) : Nat → HeadResult :=
  fun i => if server i = .err then .notOk else server i

/-- A concrete single-model loader for the batch-load example: config 0
fails, everything else loads. -/
def exampleLoad : Nat → Except String Nat :=
  fun n => if n = 0 then .error "network failure" else .ok n

/-- The prober state before any probe. -/
def freshDetectState : DetectState := { availableVans := [], vansDetected := false }

/-- A prober state after a completed probe that discovered nothing. -/
def emptyDetectedState : DetectState := { availableVans := [], vansDetected := true }

/-- Switchboard state after `loadVan` on the static id suspends at its
`await`. -/
def c1StateMid : MState := (loadVanStart initState staticList "van-001").1

/-- Switchboard state after that load resolves. -/
def c1StateDone : MState := loadVanResumeSuccess c1StateMid "van-001"

/-- A switchboard state with one cached, visible, attached van: model 0 is
`van-001`, currently shown. -/
def c2State : MState :=
  { objs := [⟨0, true, true⟩], vans := [("van-001", 0)], currentVan := some 0,
    currentVanId := some "van-001", pending := [], nextModel := 1 }

/-- The same shape of state, used for the failed-load rollback scenario. -/
def c3State : MState :=
  { objs := [⟨0, true, true⟩], vans := [("van-001", 0)], currentVan := some 0,
    currentVanId := some "van-001", pending := [], nextModel := 1 }

/-- A one-mesh model whose geometry is indexed with `index.count = 300`. -/
def indexed300 : List MeshNode :=
  [{ isMesh := true, geometry := some { indexCount := some 300, positionCount := 150 } }]

/-- A one-mesh model whose geometry is unindexed with
`position.count = 300`. -/
def unindexed300 : List MeshNode :=
  [{ isMesh := true, geometry := some { indexCount := none, positionCount := 300 } }]

/-- A concrete accessory model for the attachment example. -/
def exampleWheel : Obj3D Nat := .mk "wheel" 0 0 0 []

/-- A concrete van scene graph with exactly one mount node `FL`. -/
def exampleVan : Obj3D Nat :=
  .mk "van" 0 0 0 [.mk "FL" 1 2 3 [], .mk "body" 9 9 9 []]

/-! ## Theorems -/

/-- The accumulating fold of `getModelInfo` equals the accumulator plus the
spec's sum over mesh geometries. -/
theorem getModelInfo_foldl_eq (model : List MeshNode) (q : ℚ) :
    model.foldl
      (fun polygonCount child =>
        if child.isMesh then
          match child.geometry with
          | some g => polygonCount + polyContribution g
          | none => polygonCount
        else polygonCount) q
      = q + (((model.filter (fun c => c.isMesh)).filterMap (fun c => c.geometry)).map
          polyContribution).sum := by
  induction model generalizing q with
  | nil => simp
  | cons c cs ih =>
      by_cases hm : c.isMesh
      · cases hg : c.geometry with
        | none => simp [hm, hg, ih]
        | some g => simp [hm, hg, ih, add_assoc]
      · simp [hm, ih]

/-- C5: `getModelInfo` computes `polygonCount` as the floor of the sum over
meshes of `index.count / 3` (indexed) or `position.count / 3` (unindexed);
concretely, an indexed geometry with `index.count = 300` and an unindexed
geometry with `position.count = 300` each yield `polygonCount = 100`. -/
theorem getModelInfo_polygonCount_spec :
    (∀ model : List MeshNode, getModelInfoPolygonCount model = specPolygonCount model) ∧
    getModelInfoPolygonCount indexed300 = 100 ∧
    getModelInfoPolygonCount unindexed300 = 100 := by
  refine ⟨fun model => ?_, ?_, ?_⟩
  · unfold getModelInfoPolygonCount specPolygonCount
    rw [getModelInfo_foldl_eq]
    norm_num
  · norm_num [getModelInfoPolygonCount, indexed300, polyContribution]
  · norm_num [getModelInfoPolygonCount, unindexed300, polyContribution]

/-- C8 fails as frozen: the synthesized vehicle id uses the prefix `van-`,
not `vehicle-`; at index 1 the id is `van-001`, which differs from
`vehicle-001`. -/
theorem candidate_id_not_vehicle_prefixed :
    (candidateFor 1).id = "van-001" ∧ (candidateFor 1).id ≠ "vehicle-" ++ padStart3 1 := by
  decide

/-- C8 amended: for every candidate index, the synthesized id is `van-`
followed by the index zero-padded to 3 digits, the filename is the id
followed by the `.glb` extension, and the full candidate path is `basePath`
concatenated with the filename. -/
theorem candidate_path_convention (i : Nat) :
    (candidateFor i).id = "van-" ++ padStart3 i ∧
    (candidateFor i).filename = (candidateFor i).id ++ ".glb" ∧
    candidatePath i = basePath ++ (candidateFor i).filename := by
  refine ⟨rfl, ?_, rfl⟩
  simp [candidateFor, getFilename, getVanId, String.append_assoc]

/-- C7 fails as frozen: after a completed probe that discovered zero vans,
`getAvailableVans` returns the static config list, not the (empty) memoized
probe result. -/
theorem getAvailableVans_empty_detected :
    emptyDetectedState.vansDetected = true ∧
    getAvailableVans emptyDetectedState ≠ emptyDetectedState.availableVans ∧
    getAvailableVans emptyDetectedState = staticList := by
  decide

/-- C7 amended: `getAvailableVans` returns the prober's memoized result
whenever probing has completed and discovered at least one van, and otherwise
(probe not yet complete, or complete but empty) returns the statically
declared list; it is a pure read of the memoization state and issues no
existence check. -/
theorem getAvailableVans_spec (s : DetectState) :
    (s.vansDetected = true → s.availableVans ≠ [] → getAvailableVans s = s.availableVans) ∧
    (s.vansDetected = false → getAvailableVans s = staticList) ∧
    (s.availableVans = [] → getAvailableVans s = staticList) := by
  refine ⟨fun hd hne => ?_, fun hd => ?_, fun he => ?_⟩
  · have hlen : 0 < s.availableVans.length := List.length_pos.mpr hne
    simp [getAvailableVans, hd, hlen]
  · simp [getAvailableVans, hd]
  · simp [getAvailableVans, he]

/-- Witness for the amended C7 at concrete states: a completed probe with one
discovered van returns it, and a fresh state returns the static list. -/
theorem getAvailableVans_spec_witness :
    getAvailableVans { availableVans := [candidateFor 1], vansDetected := true }
      = [candidateFor 1] ∧
    getAvailableVans freshDetectState = staticList :=
  ⟨(getAvailableVans_spec { availableVans := [candidateFor 1], vansDetected := true }).1
      rfl (by decide),
   (getAvailableVans_spec freshDetectState).2.1 rfl⟩

/-- C4: calling `detectAvailableVans` again after a completed first call
returns the first call's result unchanged (same list, same order) — whatever
the server would now answer — and issues zero existence checks. -/
theorem detect_memoized (server server2 : Nat → HeadResult) (s : DetectState)
    (h : s.vansDetected = false) :
    (detectAvailableVans server2 (detectAvailableVans server s).2.1).1
      = (detectAvailableVans server s).1 ∧
    (detectAvailableVans server2 (detectAvailableVans server s).2.1).2.2 = 0 := by
  simp [detectAvailableVans, h]

/-- Witness for C4: a fresh prober state probed against a server with no
vans, then re-probed. -/
theorem detect_memoized_witness :
    freshDetectState.vansDetected = false ∧
    ((detectAvailableVans serverOnlyOne
        (detectAvailableVans serverOnlyOne freshDetectState).2.1).1
      = (detectAvailableVans serverOnlyOne freshDetectState).1 ∧
     (detectAvailableVans serverOnlyOne
        (detectAvailableVans serverOnlyOne freshDetectState).2.1).2.2 = 0) :=
  ⟨rfl, detect_memoized serverOnlyOne serverOnlyOne freshDetectState rfl⟩

/-- One check promise produces a candidate exactly for an `ok` response. -/
theorem checkResult_eq_some (server : Nat → HeadResult) (i : Nat) (c : VanConfig) :
    checkResult server i = some c ↔ server i = .ok ∧ c = candidateFor i := by
  cases h : server i <;> simp [checkResult, h, eq_comm]

/-- Masking errors to not-found answers leaves every check promise's value
unchanged. -/
theorem checkResult_maskErrors (server : Nat → HeadResult) (i : Nat) :
    checkResult (maskErrors server) i = checkResult server i := by
  cases h : server i <;> simp [checkResult, maskErrors, h]

/-- C6: on a fresh state the prober issues one existence check per index
`1..checkCount`; the result holds exactly the candidates whose index checked
`ok` (a check that errors contributes nothing, exactly as a not-found
response, and the whole probe is unchanged if errors are replaced by
not-found responses); and the result is sorted ascending by index. -/
theorem detect_fresh_spec (server : Nat → HeadResult) (s : DetectState)
    (h : s.vansDetected = false) :
    (detectAvailableVans server s).2.2 = checkCount ∧
    (∀ c, c ∈ (detectAvailableVans server s).1 ↔
      ∃ i, 1 ≤ i ∧ i ≤ checkCount ∧ server i = .ok ∧ c = candidateFor i) ∧
    detectAvailableVans (maskErrors server) s = detectAvailableVans server s ∧
    (detectAvailableVans server s).1.Pairwise
      (fun a b => a.number.getD 0 ≤ b.number.getD 0) := by
  refine ⟨by simp [detectAvailableVans, h], fun c => ?_, ?_, ?_⟩
  · simp only [detectAvailableVans, h, if_neg Bool.false_ne_true, List.mem_mergeSort,
      List.mem_filterMap, List.mem_map, List.mem_range, id_eq]
    constructor
    · rintro ⟨a, ⟨k, hk, rfl⟩, ha⟩
      obtain ⟨hok, rfl⟩ := (checkResult_eq_some server (k + 1) c).mp ha
      exact ⟨k + 1, by omega, by omega, hok, rfl⟩
    · rintro ⟨i, h1, h2, hok, rfl⟩
      refine ⟨checkResult server i, ⟨i - 1, by omega, by congr 1; omega⟩, ?_⟩
      rw [(checkResult_eq_some server i (candidateFor i))]
      exact ⟨hok, rfl⟩
  · simp only [detectAvailableVans, h, if_neg Bool.false_ne_true,
      checkResult_maskErrors]
  · simp only [detectAvailableVans, h, if_neg Bool.false_ne_true]
    have hs := @List.sorted_mergeSort VanConfig vanNumberLe
      (fun a b c hab hbc => by
        simp only [vanNumberLe, decide_eq_true_eq] at *; omega)
      (fun a b => by
        simp only [vanNumberLe, Bool.or_eq_true, decide_eq_true_eq]
        omega)
      (((List.range checkCount).map (fun k => checkResult server (k + 1))).filterMap id)
    exact hs.imp (fun hab => by simpa [vanNumberLe] using hab)

/-- Witness for C6: on the fresh state against a server owning only
`van-001`, 100 checks are issued and the candidate for index 1 is
discovered. -/
theorem detect_fresh_spec_witness :
    freshDetectState.vansDetected = false ∧
    (detectAvailableVans serverOnlyOne freshDetectState).2.2 = checkCount ∧
    candidateFor 1 ∈ (detectAvailableVans serverOnlyOne freshDetectState).1 :=
  ⟨rfl, (detect_fresh_spec serverOnlyOne freshDetectState rfl).1,
   ((detect_fresh_spec serverOnlyOne freshDetectState rfl).2.1 (candidateFor 1)).mpr
     ⟨1, by decide, by decide, by decide, rfl⟩⟩

/-- `Promise.all` over settled outcomes containing a rejection rejects with
one of the rejections. -/
theorem promiseAll_error_mem {E A : Type} (l : List (Except E A))
    (hx : ∃ x ∈ l, ∃ e, x = .error e) :
    ∃ e, Except.error e ∈ l ∧ promiseAll l = .error e := by
  induction l with
  | nil => simp at hx
  | cons x xs ih =>
      cases x with
      | error e => exact ⟨e, by simp, by simp [promiseAll]⟩
      | ok a =>
          obtain ⟨y, hy, e, rfl⟩ := hx
          rcases List.mem_cons.mp hy with hy1 | hy2
          · exact absurd hy1 (by simp)
          · obtain ⟨e2, hmem, heq⟩ := ih ⟨_, hy2, e, rfl⟩
            exact ⟨e2, List.mem_cons_of_mem _ hmem, by simp [promiseAll, heq, Except.map]⟩

/-- `Promise.all` over settled outcomes with no rejection resolves with the
full ordered list of values. -/
theorem promiseAll_ok_length {E A : Type} (l : List (Except E A))
    (hx : ∀ x ∈ l, ∃ a, x = .ok a) :
    ∃ as, promiseAll l = .ok as ∧ as.length = l.length := by
  induction l with
  | nil => exact ⟨[], rfl, rfl⟩
  | cons x xs ih =>
      obtain ⟨a, rfl⟩ := hx x (by simp)
      obtain ⟨as, has, hlen⟩ := ih (fun y hy => hx y (List.mem_cons_of_mem _ hy))
      exact ⟨a :: as, by simp [promiseAll, has, Except.map], by simp [hlen]⟩

/-- C10: `loadModels` fails atomically — if any single config's load fails,
the whole batch call fails with a failing load's error and returns no
partial list; if every load succeeds, the batch resolves with one handle per
config. -/
theorem loadModels_atomic {C E A : Type} (load : C → Except E A)
    (modelConfigs : List C) :
    ((∃ c ∈ modelConfigs, ∃ e, load c = .error e) →
      ∃ c ∈ modelConfigs, ∃ e, load c = .error e ∧
        loadModels load modelConfigs = .error e) ∧
    ((∀ c ∈ modelConfigs, ∃ a, load c = .ok a) →
      ∃ hs, loadModels load modelConfigs = .ok hs ∧
        hs.length = modelConfigs.length) := by
  constructor
  · rintro ⟨c, hc, e, he⟩
    have hmem0 : Except.error e ∈ modelConfigs.map load :=
      he ▸ List.mem_map_of_mem load hc
    obtain ⟨e2, hmem, heq⟩ := promiseAll_error_mem (modelConfigs.map load)
      ⟨.error e, hmem0, e, rfl⟩
    obtain ⟨c2, hc2, hload2⟩ := List.mem_map.mp hmem
    exact ⟨c2, hc2, e2, hload2, heq⟩
  · intro hall
    have hmap : ∀ x ∈ modelConfigs.map load, ∃ a, x = .ok a := by
      rintro x hx
      obtain ⟨c, hc, rfl⟩ := List.mem_map.mp hx
      exact hall c hc
    obtain ⟨as, has, hlen⟩ := promiseAll_ok_length (modelConfigs.map load) hmap
    exact ⟨as, has, by simpa using hlen⟩

/-- Witness for C10: a two-config batch whose first config fails rejects as
a whole. -/
theorem loadModels_atomic_witness :
    (∃ c ∈ [0, 1], ∃ e, exampleLoad c = .error e) ∧
    (∃ c ∈ [0, 1], ∃ e, exampleLoad c = .error e ∧
      loadModels exampleLoad [0, 1] = .error e) :=
  ⟨⟨0, by decide, "network failure", rfl⟩,
   (loadModels_atomic exampleLoad [0, 1]).1 ⟨0, by decide, "network failure", rfl⟩⟩

/-- Folding the per-mount attachment loop appends one transformed clone per
mount node to the root's children and changes nothing else of the root. -/
theorem attach_foldl {V : Type} (wheel : Obj3D V) (found : List (Obj3D V)) :
    ∀ van : Obj3D V,
      found.foldl (fun van nullObject => addChild van (wheelCloneFor wheel nullObject)) van
        = .mk van.name van.position van.rotation van.scale
            (van.children ++ found.map (wheelCloneFor wheel)) := by
  induction found with
  | nil =>
      intro van
      cases van
      simp [Obj3D.name, Obj3D.position, Obj3D.rotation, Obj3D.scale, Obj3D.children]
  | cons n ns ih =>
      intro van
      rw [List.foldl_cons, ih]
      cases van
      simp [addChild, Obj3D.name, Obj3D.position, Obj3D.rotation, Obj3D.scale,
        Obj3D.children]

/-- C9: attaching with an unavailable accessory model is a no-op; attaching
with `k` mount nodes (nodes of the traversal named `FL`, `FR`, `RL` or `RR`)
appends exactly `k` accessory clones to the vehicle root's children, leaving
the rest of the root unchanged (so zero mount nodes leave the child count
unchanged), and each clone carries the corresponding mount node's position,
rotation and scale over the accessory's own name and subtree. -/
theorem attachWheels_spec {V : Type} (wheel van : Obj3D V) :
    attachWheelsToVan none van = van ∧
    attachWheelsToVan (some wheel) van
      = .mk van.name van.position van.rotation van.scale
          (van.children ++ (foundNulls van).map (wheelCloneFor wheel)) ∧
    ((foundNulls van).length = 0 → attachWheelsToVan (some wheel) van = van) ∧
    (attachWheelsToVan (some wheel) van).children.length
      = van.children.length + (foundNulls van).length ∧
    (∀ nullObject ∈ foundNulls van,
      (wheelCloneFor wheel nullObject).position = nullObject.position ∧
      (wheelCloneFor wheel nullObject).rotation = nullObject.rotation ∧
      (wheelCloneFor wheel nullObject).scale = nullObject.scale ∧
      (wheelCloneFor wheel nullObject).name = wheel.name ∧
      (wheelCloneFor wheel nullObject).children = wheel.children) := by
  have hsome : attachWheelsToVan (some wheel) van
      = .mk van.name van.position van.rotation van.scale
          (van.children ++ (foundNulls van).map (wheelCloneFor wheel)) := by
    unfold attachWheelsToVan
    cases hf : (foundNulls van).isEmpty
    · simpa only [Bool.false_eq_true, if_false] using attach_foldl wheel (foundNulls van) van
    · simp only [if_pos trivial]
      rw [List.isEmpty_iff.mp hf]
      cases van
      simp [Obj3D.name, Obj3D.position, Obj3D.rotation, Obj3D.scale, Obj3D.children]
  refine ⟨rfl, hsome, ?_, ?_, ?_⟩
  · intro hlen
    rw [hsome, List.length_eq_zero.mp hlen]
    cases van
    simp [Obj3D.name, Obj3D.position, Obj3D.rotation, Obj3D.scale, Obj3D.children]
  · rw [hsome]
    simp [Obj3D.children]
  · intro nullObject _
    exact ⟨rfl, rfl, rfl, rfl, rfl⟩

/-- Witness for C9 at a concrete van with one `FL` mount: the child count
grows by one and the clone carries the mount transform. -/
theorem attachWheels_spec_witness :
    (attachWheelsToVan (some exampleWheel) exampleVan).children.length
        = exampleVan.children.length + (foundNulls exampleVan).length ∧
    (wheelCloneFor exampleWheel (.mk "FL" 1 2 3 [])).position = 1 :=
  ⟨(attachWheels_spec exampleWheel exampleVan).2.2.2.1,
   ((attachWheels_spec exampleWheel exampleVan).2.2.2.2 (.mk "FL" 1 2 3 [])
      (List.Mem.head _)).1⟩

/-- Where an element of `setVis objs m b` comes from. -/
theorem setVis_mem {objs : List SceneObj} {m : Nat} {b : Bool} {o : SceneObj}
    (h : o ∈ setVis objs m b) :
    ∃ o0 ∈ objs, o.mid = o0.mid ∧ o.inScene = o0.inScene ∧
      ((o0.mid = m ∧ o.visible = b) ∨ (o0.mid ≠ m ∧ o = o0)) := by
  simp only [setVis, List.mem_map] at h
  obtain ⟨o0, h0, rfl⟩ := h
  by_cases hm : o0.mid = m
  · exact ⟨o0, h0, by simp [hm], by simp [hm], Or.inl ⟨hm, by simp [hm]⟩⟩
  · exact ⟨o0, h0, by simp [hm], by simp [hm], Or.inr ⟨hm, by simp [hm]⟩⟩

/-- Where an element of `attachObj objs m` comes from. -/
theorem attachObj_mem {objs : List SceneObj} {m : Nat} {o : SceneObj}
    (h : o ∈ attachObj objs m) :
    ∃ o0 ∈ objs, o.mid = o0.mid ∧ o.visible = o0.visible ∧
      ((o0.mid = m ∧ o.inScene = true) ∨ (o0.mid ≠ m ∧ o = o0)) := by
  simp only [attachObj, List.mem_map] at h
  obtain ⟨o0, h0, rfl⟩ := h
  by_cases hm : o0.mid = m
  · exact ⟨o0, h0, by simp [hm], by simp [hm], Or.inl ⟨hm, by simp [hm]⟩⟩
  · exact ⟨o0, h0, by simp [hm], by simp [hm], Or.inr ⟨hm, by simp [hm]⟩⟩

/-- Every object carrying the flagged identity in `setVis objs m b` has its
`visible` flag equal to `b`. -/
theorem setVis_visible {objs : List SceneObj} {m : Nat} {b : Bool} {o : SceneObj}
    (h : o ∈ setVis objs m b) (hm : o.mid = m) : o.visible = b := by
  obtain ⟨o0, _, hmid, _, hc⟩ := setVis_mem h
  rcases hc with ⟨_, hv⟩ | ⟨hne, rfl⟩
  · exact hv
  · exact absurd (hmid ▸ hm) hne

/-- The optimistic hide changes no field but the objects. -/
theorem hideCurrent_currentVan (s : MState) : (hideCurrent s).currentVan = s.currentVan := by
  cases h : s.currentVan <;> simp [hideCurrent, h]

/-- The optimistic hide leaves the cache untouched. -/
theorem hideCurrent_vans (s : MState) : (hideCurrent s).vans = s.vans := by
  cases h : s.currentVan <;> simp [hideCurrent, h]

/-- The optimistic hide leaves the in-flight set untouched. -/
theorem hideCurrent_pending (s : MState) : (hideCurrent s).pending = s.pending := by
  cases h : s.currentVan <;> simp [hideCurrent, h]

/-- After the optimistic hide, no scene object is rendered: in a state
satisfying the invariant, the only candidate was the current one and it was
just hidden. -/
theorem hideCurrent_hides (s : MState) (hInv : Inv s) :
    ∀ o ∈ (hideCurrent s).objs, o.inScene = true → o.visible = true → False := by
  intro o ho hin hvis
  unfold hideCurrent at ho
  cases hc : s.currentVan with
  | none =>
      rw [hc] at ho
      have := hInv o ho hin hvis
      rw [hc] at this
      exact Option.noConfusion this
  | some m =>
      rw [hc] at ho
      obtain ⟨o0, h0, hmid, hsc, hcase⟩ := setVis_mem ho
      rcases hcase with ⟨_, hvb⟩ | ⟨hm, heq⟩
      · rw [hvis] at hvb
        exact Bool.noConfusion hvb
      · rw [heq] at hin hvis
        have hcur := hInv o0 h0 hin hvis
        rw [hc] at hcur
        have : o.mid = m := hmid.trans (Option.some.inj hcur).symm
        rw [heq] at this
        exact hm this

/-- The optimistic hide preserves the invariant. -/
theorem hideCurrent_inv (s : MState) (hInv : Inv s) : Inv (hideCurrent s) :=
  fun o ho hin hvis => (hideCurrent_hides s hInv o ho hin hvis).elim

/-- `switchToVan` preserves the invariant. -/
theorem switchToVan_inv (s : MState) (truckId : String) (hInv : Inv s) :
    Inv (switchToVan s truckId) := by
  unfold switchToVan
  cases hl : lookupVan s.vans truckId with
  | none => exact hInv
  | some m =>
      intro o ho hin hvis
      obtain ⟨o1, h1, hmid1, _, hcase1⟩ := setVis_mem ho
      rcases hcase1 with ⟨hm1, _⟩ | ⟨hm1, heq1⟩
      · show some m = some o.mid
        rw [hmid1, hm1]
      · obtain ⟨o0, h0, hmid0, _, hcase0⟩ := attachObj_mem h1
        rcases hcase0 with ⟨hm0, _⟩ | ⟨hm0, heq0⟩
        · exact absurd (hmid0 ▸ hm0) hm1
        · rw [heq1, heq0] at hin hvis
          exact (hideCurrent_hides s hInv o0 h0 hin hvis).elim

/-- The synchronous prefix of `loadVan` preserves the invariant, whatever
the detected list and the requested id. -/
theorem loadVanStart_inv (s : MState) (availableVans : List VanConfig)
    (truckId : String) (hInv : Inv s) :
    Inv (loadVanStart s availableVans truckId).1 := by
  unfold loadVanStart
  cases hl : (lookupVan (hideCurrent s).vans truckId).isSome
  · cases hf : findConfig truckId availableVans
    · simpa [hl, hf] using hideCurrent_inv s hInv
    · simp only [hl, Bool.false_eq_true, if_false, hf]
      intro o ho hin hvis
      exact (hideCurrent_hides s hInv o ho hin hvis).elim
  · simpa [hl] using switchToVan_inv (hideCurrent s) truckId (hideCurrent_inv s hInv)

/-- Completion of a successful load preserves the invariant: the freshly
decoded model is created outside the scene, and the same atomic segment runs
`switchToVan`. -/
theorem loadVanResumeSuccess_inv (s : MState) (truckId : String) (hInv : Inv s) :
    Inv (loadVanResumeSuccess s truckId) := by
  unfold loadVanResumeSuccess
  apply switchToVan_inv
  intro o ho hin hvis
  rcases List.mem_cons.mp ho with rfl | ho2
  · exact Bool.noConfusion hin
  · exact hInv o ho2 hin hvis

/-- Completion of a failed load preserves the invariant: only the current
model's visibility is restored. -/
theorem loadVanResumeFailure_inv (s : MState) (truckId : String) (hInv : Inv s) :
    Inv (loadVanResumeFailure s truckId) := by
  unfold loadVanResumeFailure
  cases hc : s.currentVan with
  | none =>
      simp only [hc]
      intro o ho hin hvis
      have := hInv o ho hin hvis
      rw [hc] at this
      exact Option.noConfusion this
  | some m =>
      simp only [hc]
      intro o ho hin hvis
      obtain ⟨o0, h0, hmid, _, hcase⟩ := setVis_mem ho
      rcases hcase with ⟨hm0, _⟩ | ⟨_, heq⟩
      · show some m = some o.mid
        rw [hmid, hm0]
      · rw [heq] at hin hvis
        have := hInv o0 h0 hin hvis
        rw [hc] at this
        show some m = some o.mid
        rw [hmid]
        exact this

/-- Every reachable switchboard state satisfies the invariant. -/
theorem reachable_inv (s : MState) (h : Reachable s) : Inv s := by
  induction h with
  | init => intro o ho _ _; simp [initState] at ho
  | start s availableVans truckId _ ih => exact loadVanStart_inv s availableVans truckId ih
  | resumeOk s truckId _ _ ih => exact loadVanResumeSuccess_inv s truckId ih
  | resumeFail s truckId _ _ ih => exact loadVanResumeFailure_inv s truckId ih

/-- C1: under every interleaving of `loadVan` calls — including calls issued
while an earlier call is still awaiting its load — at most one model's scene
node is visible and attached at any observation point between atomic
segments. -/
theorem at_most_one_visible (s : MState) (hs : Reachable s) (m1 m2 : Nat)
    (h1 : VisibleModel s m1) (h2 : VisibleModel s m2) : m1 = m2 := by
  obtain ⟨o1, ho1, hm1, hv1, hi1⟩ := h1
  obtain ⟨o2, ho2, hm2, hv2, hi2⟩ := h2
  have hInv := reachable_inv s hs
  have e1 := hInv o1 ho1 hi1 hv1
  have e2 := hInv o2 ho2 hi2 hv2
  rw [e1] at e2
  rw [← hm1, ← hm2]
  exact Option.some.inj e2

/-- Witness for C1 at the reachable state in which `van-001` has loaded and
is showing. -/
theorem at_most_one_visible_witness :
    VisibleModel c1StateDone 0 ∧ (0 : Nat) = 0 :=
  ⟨by decide,
   at_most_one_visible c1StateDone
     (Reachable.resumeOk c1StateMid "van-001"
       (Reachable.start initState staticList "van-001" Reachable.init) (by decide))
     0 0 (by decide) (by decide)⟩

/-- C2 as frozen is violated by the code (the not-found throw happens after
the optimistic hide and bypasses the rollback): from a state showing
`van-001`, requesting the unknown id `van-999` ends in the not-found error
while the previously visible entry has been switched to invisible. -/
theorem loadVan_notFound_hides_current :
    (∃ o ∈ c2State.objs, o.mid = 0 ∧ o.visible = true ∧ o.inScene = true) ∧
    c2State.currentVan = some 0 ∧
    findConfig "van-999" [] = none ∧
    (loadVanStart c2State [] "van-999").2 = StartOutcome.notFound ∧
    (∀ o ∈ (loadVanStart c2State [] "van-999").1.objs, o.mid = 0 → o.visible = false) := by
  decide

/-- C3: when a `loadVan` on an uncached, resolvable id suspends after the
optimistic hide and its load then fails, the previously visible model's
visibility is restored to true in the same segment that rethrows the error;
the cache gains no entry and nothing remains or is re-queued in flight (no
automatic retry). -/
theorem failed_load_restores (s : MState) (availableVans : List VanConfig)
    (truckId : String) (m : Nat)
    (hcur : s.currentVan = some m)
    (hmiss : lookupVan s.vans truckId = none)
    (hconf : (findConfig truckId availableVans).isSome = true) :
    (loadVanStart s availableVans truckId).2 = StartOutcome.suspended ∧
    (∀ o ∈ (loadVanResumeFailure (loadVanStart s availableVans truckId).1 truckId).objs,
       o.mid = m → o.visible = true) ∧
    (loadVanResumeFailure (loadVanStart s availableVans truckId).1 truckId).vans
      = s.vans ∧
    (loadVanResumeFailure (loadVanStart s availableVans truckId).1 truckId).pending
      = s.pending := by
  obtain ⟨c, hc⟩ := Option.isSome_iff_exists.mp hconf
  have hmiss2 : lookupVan (hideCurrent s).vans truckId = none := by
    rw [hideCurrent_vans]; exact hmiss
  have hstart : loadVanStart s availableVans truckId
      = ({ hideCurrent s with pending := truckId :: (hideCurrent s).pending },
         StartOutcome.suspended) := by
    unfold loadVanStart
    rw [hmiss2, hc]
    rfl
  rw [hstart]
  have hcur2 : ({ hideCurrent s with
      pending := truckId :: (hideCurrent s).pending } : MState).currentVan = some m := by
    show (hideCurrent s).currentVan = some m
    rw [hideCurrent_currentVan]; exact hcur
  refine ⟨rfl, ?_, ?_, ?_⟩
  · intro o ho hm
    unfold loadVanResumeFailure at ho
    rw [hcur2] at ho
    exact setVis_visible ho hm
  · unfold loadVanResumeFailure
    rw [hcur2]
    show (hideCurrent s).vans = s.vans
    exact hideCurrent_vans s
  · unfold loadVanResumeFailure
    rw [hcur2]
    show (truckId :: (hideCurrent s).pending).erase truckId = s.pending
    rw [List.erase_cons_head, hideCurrent_pending]

/-- Witness for C3: the state showing `van-001` requests `van-777`, known
only to the prober; the load fails, and model 0's visibility is back to
true with the cache and in-flight set unchanged. -/
theorem failed_load_restores_witness :
    c3State.currentVan = some 0 ∧
    lookupVan c3State.vans "van-777" = none ∧
    (findConfig "van-777" [candidateFor 777]).isSome = true ∧
    (loadVanStart c3State [candidateFor 777] "van-777").2 = StartOutcome.suspended ∧
    (loadVanResumeFailure (loadVanStart c3State [candidateFor 777] "van-777").1
        "van-777").pending = c3State.pending :=
  ⟨rfl, by decide, by decide,
   (failed_load_restores c3State [candidateFor 777] "van-777" 0 rfl (by decide)
      (by decide)).1,
   (failed_load_restores c3State [candidateFor 777] "van-777" 0 rfl (by decide)
      (by decide)).2.2.2⟩

end Garage
